import Mathlib

/-!
Bounded Retry Fetch — shallow embedding.

This file embeds the two `retryFetch` implementations of
`foundations-week2/day13-Promises, chaining, .then, .catch, error handling.js`:

* the recursive continuation-passing `retryFetch(url, retries)` (HARD 5,
  promise-chain section), whose inner `attemptFetch(attempt)` calls `fetch`,
  throws `new Error("Bad response.")` on a non-ok response, resolves the
  outer promise with the decoded data, and in its `.catch` either recurses
  with `attempt + 1` (when `attempt < retries`) or rejects the outer promise
  with the template string `` `❌ Failed after ${retries} retries:
  ${error.message}` `` — a plain string, not an Error object;
* the async/await `retryFetch(url, retries)` (HARD 5, async section), a
  `for (let attempt = 1; attempt <= retries; attempt++)` loop that returns
  the decoded data on success and, in its `catch`, when `attempt === retries`,
  throws `new Error` whose message is `` `Failed after ${retries} retries:
  ${error.message}` ``; when the loop finishes without returning (only
  possible for `retries ≤ 0`) the async function resolves with `undefined`.

The nondeterminism of the network is modelled by a sequence
`outcomes : Nat → Outcome α` giving the outcome of the k-th remote call
(1-based): the call either resolves ok with a decoded payload (`ok`),
resolves with a non-ok status (`badStatus`, so the code throws
`Error("Bad response.")`), or rejects anywhere in the chain with an error
carrying a message (`transportFail`).  Each embedded implementation returns
the settlement value together with the list of attempt numbers for which a
remote call was performed, so call counts and "no call after success" are
observable.
-/

/-- Outcome of one underlying remote call (one `fetch` attempt plus decode). -/
inductive Outcome (α : Type) where
  /-- transport completes, status ok, body decodes to `data`. -/
  | ok (data : α)
  /-- the promise chain of the attempt rejects (connectivity error, decode
  error, ...) with an error whose `.message` is `message`. -/
  | transportFail (message : String)
  /-- transport completes but `response.ok` is false: the code throws
  `new Error("Bad response.")`. -/
  | badStatus
deriving DecidableEq

/-- Whether the attempt reached the success path (`resolve(data)` / `return data`). -/
def Outcome.isOk {α : Type} : Outcome α → Bool
  | .ok _ => true
  | .transportFail _ => false
  | .badStatus => false

/-- The `error.message` seen by the `catch` handler for a failed attempt
(`""` is unused filler for the success case, where no catch runs). -/
def Outcome.errMsg {α : Type} : Outcome α → String
  | .ok _ => ""
  | .transportFail m => m
  | .badStatus => "Bad response."

/-- How a `retryFetch` invocation settles, as seen by the caller. -/
inductive FetchResult (α : Type) where
  /-- the promise resolves with a decoded payload. -/
  | resolved (data : α)
  /-- the async function returns without a value: the promise resolves with
  `undefined`. -/
  | resolvedUndef
  /-- the promise is rejected with a plain string (the recursive version
  calls `reject` on a template string). -/
  | rejectedString (value : String)
  /-- the promise is rejected with an Error object carrying `message`
  (the async version throws `new Error(...)`). -/
  | rejectedError (message : String)
  /-- Modelled from the spec: §6 claims that on exhaustion the caller
  receives a failure object exposing `{ attemptsMade: integer, lastError:
  string }`.  This constructor is that claimed shape; neither implementation
  in the source ever produces it. -/
  | rejectedObj (attemptsMade : Nat) (lastError : String)
deriving DecidableEq

/-- The caller-visible settlement is a rejection (of any shape). -/
def FetchResult.isRejected {α : Type} : FetchResult α → Bool
  | .rejectedString _ => true
  | .rejectedError _ => true
  | .rejectedObj _ _ => true
  | .resolved _ => false
  | .resolvedUndef => false

/-- The settlement is the spec's claimed `{attemptsMade, lastError}` object. -/
def FetchResult.isFailureObj {α : Type} : FetchResult α → Bool
  | .rejectedObj _ _ => true
  | _ => false

/-- The rejection value of the recursive version:
`` `❌ Failed after ${retries} retries: ${error.message}` ``. -/
def failString (retries : Nat) (message : String) : String :=
  "❌ Failed after " ++ toString retries ++ " retries: " ++ message

/-- The `.message` of the Error thrown by the async version:
`` `Failed after ${retries} retries: ${error.message}` ``. -/
def asyncFailMessage (retries : Nat) (message : String) : String :=
  "Failed after " ++ toString retries ++ " retries: " ++ message

/-- The inner `attemptFetch(attempt)` of the recursive `retryFetch`: perform
the remote call for `attempt`; on success resolve with the data; on failure,
if `attempt < retries` recurse at `attempt + 1`, else reject with
`failString`.  Returns the settlement together with the list of attempt
numbers that performed a remote call. -/
def attemptFetch {α : Type} (outcomes : Nat → Outcome α) (retries : Nat)
    (attempt : Nat) : FetchResult α × List Nat :=
  match outcomes attempt with
  | .ok d => (.resolved d, [attempt])
  | o =>
      if h : attempt < retries then
        let r := attemptFetch outcomes retries (attempt + 1)
        (r.1, attempt :: r.2)
      else
        (.rejectedString (failString retries o.errMsg), [attempt])
termination_by retries - attempt
decreasing_by omega

/-- The recursive `retryFetch(url, retries)`: settlement of
`attemptFetch(1)`. -/
def retryFetch {α : Type} (outcomes : Nat → Outcome α) (retries : Nat) :
    FetchResult α :=
  (attemptFetch outcomes retries 1).1

/-- Attempt numbers at which the recursive `retryFetch` performed a remote
call. -/
def retryFetchAttempts {α : Type} (outcomes : Nat → Outcome α)
    (retries : Nat) : List Nat :=
  (attemptFetch outcomes retries 1).2

/-- Number of remote calls performed by the recursive `retryFetch`. -/
def retryFetchCalls {α : Type} (outcomes : Nat → Outcome α)
    (retries : Nat) : Nat :=
  (retryFetchAttempts outcomes retries).length

/-- The body of the async/await `retryFetch` from loop position `attempt`:
while `attempt <= retries`, try the remote call; return the data on success;
on failure throw `new Error(asyncFailMessage ...)` when `attempt === retries`,
otherwise continue with `attempt + 1`.  Falling off the loop returns
`undefined`.  Returns the settlement together with the attempt numbers that
performed a remote call. -/
def retryLoop {α : Type} (outcomes : Nat → Outcome α) (retries : Nat)
    (attempt : Nat) : FetchResult α × List Nat :=
  if _hle : attempt ≤ retries then
    match outcomes attempt with
    | .ok d => (.resolved d, [attempt])
    | o =>
        if attempt = retries then
          (.rejectedError (asyncFailMessage retries o.errMsg), [attempt])
        else
          let r := retryLoop outcomes retries (attempt + 1)
          (r.1, attempt :: r.2)
  else
    (.resolvedUndef, [])
termination_by retries + 1 - attempt
decreasing_by omega

/-- The async/await `retryFetch(url, retries)`: the loop started at
`attempt = 1`. -/
def retryFetchAsync {α : Type} (outcomes : Nat → Outcome α)
    (retries : Nat) : FetchResult α :=
  (retryLoop outcomes retries 1).1

/-- Attempt numbers at which the async `retryFetch` performed a remote call. -/
def retryFetchAsyncAttempts {α : Type} (outcomes : Nat → Outcome α)
    (retries : Nat) : List Nat :=
  (retryLoop outcomes retries 1).2

/-- Number of remote calls performed by the async `retryFetch`. -/
def retryFetchAsyncCalls {α : Type} (outcomes : Nat → Outcome α)
    (retries : Nat) : Nat :=
  (retryFetchAsyncAttempts outcomes retries).length

/-- Example environment: every attempt gets a non-ok response. -/
def exBad : Nat → Outcome Nat := fun _ => .badStatus

/-- Example environment: every attempt fails at the transport level. -/
def exTrans : Nat → Outcome Nat := fun _ => .transportFail "network down"

/-- Example environment: every attempt succeeds with payload `7`. -/
def exOk : Nat → Outcome Nat := fun _ => .ok 7

/-- Example environment: attempts 1 and 2 fail in transit, attempt 3 (and
later) succeed with payload `42`. -/
def exThird : Nat → Outcome Nat :=
  fun i => if i < 3 then .transportFail "boom" else .ok 42

/-! ## Step lemmas: one unfolding of each recursion -/

/-- A successful attempt resolves immediately with its payload. -/
lemma attemptFetch_ok_eq {α : Type} (outcomes : Nat → Outcome α)
    (retries attempt : Nat) (d : α) (h : outcomes attempt = .ok d) :
    attemptFetch outcomes retries attempt = (.resolved d, [attempt]) := by
  rw [attemptFetch.eq_def, h]

/-- A failed attempt below the ceiling recurses at `attempt + 1`. -/
lemma attemptFetch_fail_step {α : Type} (outcomes : Nat → Outcome α)
    (retries attempt : Nat) (hfail : (outcomes attempt).isOk = false)
    (hlt : attempt < retries) :
    attemptFetch outcomes retries attempt =
      ((attemptFetch outcomes retries (attempt + 1)).1,
        attempt :: (attemptFetch outcomes retries (attempt + 1)).2) := by
  rw [attemptFetch.eq_def]
  cases h : outcomes attempt with
  | ok d => rw [h] at hfail; simp [Outcome.isOk] at hfail
  | transportFail m => simp only [dif_pos hlt]
  | badStatus => simp only [dif_pos hlt]

/-- A failed attempt at the ceiling rejects with the `failString` built from
the current attempt's error message. -/
lemma attemptFetch_fail_last {α : Type} (outcomes : Nat → Outcome α)
    (retries attempt : Nat) (hfail : (outcomes attempt).isOk = false)
    (hge : retries ≤ attempt) :
    attemptFetch outcomes retries attempt =
      (.rejectedString (failString retries ((outcomes attempt).errMsg)),
        [attempt]) := by
  rw [attemptFetch.eq_def]
  cases h : outcomes attempt with
  | ok d => rw [h] at hfail; simp [Outcome.isOk] at hfail
  | transportFail m => simp only [dif_neg (by omega : ¬ attempt < retries)]
  | badStatus => simp only [dif_neg (by omega : ¬ attempt < retries)]

/-- Past the loop bound, the async version returns `undefined` with no call. -/
lemma retryLoop_out {α : Type} (outcomes : Nat → Outcome α)
    (retries attempt : Nat) (h : retries < attempt) :
    retryLoop outcomes retries attempt = (.resolvedUndef, []) := by
  rw [retryLoop.eq_def]
  exact dif_neg (by omega)

/-- A successful attempt inside the loop returns its payload. -/
lemma retryLoop_ok_eq {α : Type} (outcomes : Nat → Outcome α)
    (retries attempt : Nat) (d : α) (hle : attempt ≤ retries)
    (h : outcomes attempt = .ok d) :
    retryLoop outcomes retries attempt = (.resolved d, [attempt]) := by
  rw [retryLoop.eq_def, dif_pos hle, h]

/-- A failed attempt strictly below the ceiling continues the loop. -/
lemma retryLoop_fail_step {α : Type} (outcomes : Nat → Outcome α)
    (retries attempt : Nat) (hfail : (outcomes attempt).isOk = false)
    (hlt : attempt < retries) :
    retryLoop outcomes retries attempt =
      ((retryLoop outcomes retries (attempt + 1)).1,
        attempt :: (retryLoop outcomes retries (attempt + 1)).2) := by
  rw [retryLoop.eq_def, dif_pos (by omega : attempt ≤ retries)]
  cases h : outcomes attempt with
  | ok d => rw [h] at hfail; simp [Outcome.isOk] at hfail
  | transportFail m => simp only [if_neg (by omega : ¬ attempt = retries)]
  | badStatus => simp only [if_neg (by omega : ¬ attempt = retries)]

/-- A failed attempt at the ceiling throws the `Error` whose message is
`asyncFailMessage` of the current attempt's error message. -/
lemma retryLoop_fail_last {α : Type} (outcomes : Nat → Outcome α)
    (retries attempt : Nat) (hfail : (outcomes attempt).isOk = false)
    (heq : attempt = retries) :
    retryLoop outcomes retries attempt =
      (.rejectedError (asyncFailMessage retries ((outcomes attempt).errMsg)),
        [attempt]) := by
  rw [retryLoop.eq_def, dif_pos (by omega : attempt ≤ retries)]
  cases h : outcomes attempt with
  | ok d => rw [h] at hfail; simp [Outcome.isOk] at hfail
  | transportFail m => simp only [if_pos heq]
  | badStatus => simp only [if_pos heq]

/-! ## Characterization lemmas -/

/-- Recursive version, success path: if the first success from position
`attempt` on is at attempt `k ≤ retries`, then `attemptFetch` resolves with
that payload after calling attempts `attempt, …, k` only. -/
lemma attemptFetch_first_ok {α : Type} (outcomes : Nat → Outcome α)
    (N k : Nat) (d : α) (hok : outcomes k = .ok d) (hkN : k ≤ N) :
    ∀ n attempt, attempt + n = k →
      (∀ i, attempt ≤ i → i < k → (outcomes i).isOk = false) →
      (attemptFetch outcomes N attempt).1 = .resolved d ∧
      (attemptFetch outcomes N attempt).2.length = n + 1 ∧
      ∀ a ∈ (attemptFetch outcomes N attempt).2, attempt ≤ a ∧ a ≤ k := by
  intro n
  induction n with
  | zero =>
      intro attempt hak _hfail
      have hA : attempt = k := by omega
      subst hA
      rw [attemptFetch_ok_eq outcomes N attempt d hok]
      simp
  | succ m ih =>
      intro attempt hak hfail
      have hlt : attempt < k := by omega
      have hfa : (outcomes attempt).isOk = false := hfail attempt le_rfl hlt
      rw [attemptFetch_fail_step outcomes N attempt hfa (by omega)]
      obtain ⟨ih1, ih2, ih3⟩ := ih (attempt + 1) (by omega)
        (fun i h1 h2 => hfail i (by omega) h2)
      refine ⟨ih1, by simpa using ih2, ?_⟩
      intro a ha
      rcases List.mem_cons.mp ha with rfl | ha
      · exact ⟨le_rfl, by omega⟩
      · have := ih3 a ha
        omega

/-- Recursive version, exhaustion path: if every attempt from `attempt` up
to `retries = N` fails, `attemptFetch` rejects with the string built from
`N` and the final attempt's error message, after calling attempts
`attempt, …, N`. -/
lemma attemptFetch_all_fail {α : Type} (outcomes : Nat → Outcome α)
    (N : Nat) :
    ∀ n attempt, attempt + n = N →
      (∀ i, attempt ≤ i → i ≤ N → (outcomes i).isOk = false) →
      (attemptFetch outcomes N attempt).1 =
        .rejectedString (failString N ((outcomes N).errMsg)) ∧
      (attemptFetch outcomes N attempt).2.length = n + 1 ∧
      ∀ a ∈ (attemptFetch outcomes N attempt).2, attempt ≤ a ∧ a ≤ N := by
  intro n
  induction n with
  | zero =>
      intro attempt hak hfail
      have hA : attempt = N := by omega
      subst hA
      rw [attemptFetch_fail_last outcomes attempt attempt
        (hfail attempt le_rfl le_rfl) le_rfl]
      simp
  | succ m ih =>
      intro attempt hak hfail
      have hfa : (outcomes attempt).isOk = false :=
        hfail attempt le_rfl (by omega)
      rw [attemptFetch_fail_step outcomes N attempt hfa (by omega)]
      obtain ⟨ih1, ih2, ih3⟩ := ih (attempt + 1) (by omega)
        (fun i h1 h2 => hfail i (by omega) h2)
      refine ⟨ih1, by simpa using ih2, ?_⟩
      intro a ha
      rcases List.mem_cons.mp ha with rfl | ha
      · exact ⟨le_rfl, by omega⟩
      · have := ih3 a ha
        omega

/-- Async version, success path: first success from `attempt` at
`k ≤ retries` resolves with that payload after attempts `attempt, …, k`. -/
lemma retryLoop_first_ok {α : Type} (outcomes : Nat → Outcome α)
    (N k : Nat) (d : α) (hok : outcomes k = .ok d) (hkN : k ≤ N) :
    ∀ n attempt, attempt + n = k →
      (∀ i, attempt ≤ i → i < k → (outcomes i).isOk = false) →
      (retryLoop outcomes N attempt).1 = .resolved d ∧
      (retryLoop outcomes N attempt).2.length = n + 1 ∧
      ∀ a ∈ (retryLoop outcomes N attempt).2, attempt ≤ a ∧ a ≤ k := by
  intro n
  induction n with
  | zero =>
      intro attempt hak _hfail
      have hA : attempt = k := by omega
      subst hA
      rw [retryLoop_ok_eq outcomes N attempt d (by omega) hok]
      simp
  | succ m ih =>
      intro attempt hak hfail
      have hlt : attempt < k := by omega
      have hfa : (outcomes attempt).isOk = false := hfail attempt le_rfl hlt
      rw [retryLoop_fail_step outcomes N attempt hfa (by omega)]
      obtain ⟨ih1, ih2, ih3⟩ := ih (attempt + 1) (by omega)
        (fun i h1 h2 => hfail i (by omega) h2)
      refine ⟨ih1, by simpa using ih2, ?_⟩
      intro a ha
      rcases List.mem_cons.mp ha with rfl | ha
      · exact ⟨le_rfl, by omega⟩
      · have := ih3 a ha
        omega

/-- Async version, exhaustion path: if every attempt from `attempt` up to
`retries = N` fails, the loop throws the `Error` whose message is built from
`N` and the final attempt's error message, after attempts `attempt, …, N`. -/
lemma retryLoop_all_fail {α : Type} (outcomes : Nat → Outcome α) (N : Nat) :
    ∀ n attempt, attempt + n = N →
      (∀ i, attempt ≤ i → i ≤ N → (outcomes i).isOk = false) →
      (retryLoop outcomes N attempt).1 =
        .rejectedError (asyncFailMessage N ((outcomes N).errMsg)) ∧
      (retryLoop outcomes N attempt).2.length = n + 1 ∧
      ∀ a ∈ (retryLoop outcomes N attempt).2, attempt ≤ a ∧ a ≤ N := by
  intro n
  induction n with
  | zero =>
      intro attempt hak hfail
      have hA : attempt = N := by omega
      subst hA
      rw [retryLoop_fail_last outcomes attempt attempt
        (hfail attempt le_rfl le_rfl) rfl]
      simp
  | succ m ih =>
      intro attempt hak hfail
      have hfa : (outcomes attempt).isOk = false :=
        hfail attempt le_rfl (by omega)
      rw [retryLoop_fail_step outcomes N attempt hfa (by omega)]
      obtain ⟨ih1, ih2, ih3⟩ := ih (attempt + 1) (by omega)
        (fun i h1 h2 => hfail i (by omega) h2)
      refine ⟨ih1, by simpa using ih2, ?_⟩
      intro a ha
      rcases List.mem_cons.mp ha with rfl | ha
      · exact ⟨le_rfl, by omega⟩
      · have := ih3 a ha
        omega

/-- Every run either has a first success inside the budget (with all earlier
attempts failing) or every attempt in the budget fails. -/
lemma firstSuccess_or_allFail {α : Type} (outcomes : Nat → Outcome α)
    (N : Nat) :
    (∃ k d, 1 ≤ k ∧ k ≤ N ∧ outcomes k = .ok d ∧
      ∀ i, 1 ≤ i → i < k → (outcomes i).isOk = false) ∨
    (∀ i, 1 ≤ i → i ≤ N → (outcomes i).isOk = false) := by
  by_cases hex : ∃ i, 1 ≤ i ∧ i ≤ N ∧ (outcomes i).isOk = true
  · left
    classical
    obtain ⟨h1, h2, h3⟩ := Nat.find_spec hex
    refine ⟨Nat.find hex, ?_⟩
    cases hko : outcomes (Nat.find hex) with
    | ok d =>
        refine ⟨d, h1, h2, rfl, ?_⟩
        intro i hi1 hi2
        have hni := Nat.find_min hex hi2
        by_contra hcon
        exact hni ⟨hi1, by omega, by
          cases hoi : (outcomes i).isOk with
          | true => rfl
          | false => exact absurd hoi hcon⟩
    | transportFail m => rw [hko] at h3; simp [Outcome.isOk] at h3
    | badStatus => rw [hko] at h3; simp [Outcome.isOk] at h3
  · right
    intro i hi1 hi2
    cases hoi : (outcomes i).isOk with
    | false => rfl
    | true => exact absurd ⟨i, hi1, hi2, hoi⟩ hex

/-- The recursive version's control flow depends only on the ok/failed
classification of each attempt: outcome sequences that agree on `isOk`
produce the same attempt trace and the same rejection status. -/
lemma attemptFetch_isOk_congr {α : Type} (o₁ o₂ : Nat → Outcome α) (N : Nat)
    (h : ∀ i, (o₁ i).isOk = (o₂ i).isOk) :
    ∀ n attempt, N ≤ attempt + n →
      (attemptFetch o₁ N attempt).2 = (attemptFetch o₂ N attempt).2 ∧
      (attemptFetch o₁ N attempt).1.isRejected =
        (attemptFetch o₂ N attempt).1.isRejected := by
  intro n
  induction n with
  | zero =>
      intro attempt hNa
      cases h1 : o₁ attempt with
      | ok d =>
          have h2 : (o₂ attempt).isOk = true := by rw [← h, h1]; rfl
          cases h2c : o₂ attempt with
          | ok d2 =>
              rw [attemptFetch_ok_eq o₁ N attempt d h1,
                attemptFetch_ok_eq o₂ N attempt d2 h2c]
              exact ⟨rfl, rfl⟩
          | transportFail m => rw [h2c] at h2; simp [Outcome.isOk] at h2
          | badStatus => rw [h2c] at h2; simp [Outcome.isOk] at h2
      | transportFail m =>
          have h1f : (o₁ attempt).isOk = false := by rw [h1]; rfl
          have h2f : (o₂ attempt).isOk = false := by rw [← h]; exact h1f
          rw [attemptFetch_fail_last o₁ N attempt h1f (by omega),
            attemptFetch_fail_last o₂ N attempt h2f (by omega)]
          exact ⟨rfl, rfl⟩
      | badStatus =>
          have h1f : (o₁ attempt).isOk = false := by rw [h1]; rfl
          have h2f : (o₂ attempt).isOk = false := by rw [← h]; exact h1f
          rw [attemptFetch_fail_last o₁ N attempt h1f (by omega),
            attemptFetch_fail_last o₂ N attempt h2f (by omega)]
          exact ⟨rfl, rfl⟩
  | succ m ih =>
      intro attempt hNa
      cases hko : (o₁ attempt).isOk with
      | true =>
          have h2 : (o₂ attempt).isOk = true := by rw [← h]; exact hko
          cases h1c : o₁ attempt with
          | ok d =>
              cases h2c : o₂ attempt with
              | ok d2 =>
                  rw [attemptFetch_ok_eq o₁ N attempt d h1c,
                    attemptFetch_ok_eq o₂ N attempt d2 h2c]
                  exact ⟨rfl, rfl⟩
              | transportFail m2 => rw [h2c] at h2; simp [Outcome.isOk] at h2
              | badStatus => rw [h2c] at h2; simp [Outcome.isOk] at h2
          | transportFail m2 => rw [h1c] at hko; simp [Outcome.isOk] at hko
          | badStatus => rw [h1c] at hko; simp [Outcome.isOk] at hko
      | false =>
          have h2f : (o₂ attempt).isOk = false := by rw [← h]; exact hko
          by_cases hlt : attempt < N
          · rw [attemptFetch_fail_step o₁ N attempt hko hlt,
              attemptFetch_fail_step o₂ N attempt h2f hlt]
            obtain ⟨ih1, ih2⟩ := ih (attempt + 1) (by omega)
            exact ⟨by rw [ih1], ih2⟩
          · rw [attemptFetch_fail_last o₁ N attempt hko (by omega),
              attemptFetch_fail_last o₂ N attempt h2f (by omega)]
            exact ⟨rfl, rfl⟩

/-- The async version's control flow likewise depends only on the ok/failed
classification of each attempt. -/
lemma retryLoop_isOk_congr {α : Type} (o₁ o₂ : Nat → Outcome α) (N : Nat)
    (h : ∀ i, (o₁ i).isOk = (o₂ i).isOk) :
    ∀ n attempt, N ≤ attempt + n →
      (retryLoop o₁ N attempt).2 = (retryLoop o₂ N attempt).2 ∧
      (retryLoop o₁ N attempt).1.isRejected =
        (retryLoop o₂ N attempt).1.isRejected := by
  intro n
  induction n with
  | zero =>
      intro attempt hNa
      by_cases hout : N < attempt
      · rw [retryLoop_out o₁ N attempt hout, retryLoop_out o₂ N attempt hout]
        exact ⟨rfl, rfl⟩
      · have hle : attempt ≤ N := by omega
        cases hko : (o₁ attempt).isOk with
        | true =>
            have h2 : (o₂ attempt).isOk = true := by rw [← h]; exact hko
            cases h1c : o₁ attempt with
            | ok d =>
                cases h2c : o₂ attempt with
                | ok d2 =>
                    rw [retryLoop_ok_eq o₁ N attempt d hle h1c,
                      retryLoop_ok_eq o₂ N attempt d2 hle h2c]
                    exact ⟨rfl, rfl⟩
                | transportFail m2 =>
                    rw [h2c] at h2; simp [Outcome.isOk] at h2
                | badStatus => rw [h2c] at h2; simp [Outcome.isOk] at h2
            | transportFail m2 => rw [h1c] at hko; simp [Outcome.isOk] at hko
            | badStatus => rw [h1c] at hko; simp [Outcome.isOk] at hko
        | false =>
            have h2f : (o₂ attempt).isOk = false := by rw [← h]; exact hko
            have heq : attempt = N := by omega
            rw [retryLoop_fail_last o₁ N attempt hko heq,
              retryLoop_fail_last o₂ N attempt h2f heq]
            exact ⟨rfl, rfl⟩
  | succ m ih =>
      intro attempt hNa
      by_cases hout : N < attempt
      · rw [retryLoop_out o₁ N attempt hout, retryLoop_out o₂ N attempt hout]
        exact ⟨rfl, rfl⟩
      · have hle : attempt ≤ N := by omega
        cases hko : (o₁ attempt).isOk with
        | true =>
            have h2 : (o₂ attempt).isOk = true := by rw [← h]; exact hko
            cases h1c : o₁ attempt with
            | ok d =>
                cases h2c : o₂ attempt with
                | ok d2 =>
                    rw [retryLoop_ok_eq o₁ N attempt d hle h1c,
                      retryLoop_ok_eq o₂ N attempt d2 hle h2c]
                    exact ⟨rfl, rfl⟩
                | transportFail m2 =>
                    rw [h2c] at h2; simp [Outcome.isOk] at h2
                | badStatus => rw [h2c] at h2; simp [Outcome.isOk] at h2
            | transportFail m2 => rw [h1c] at hko; simp [Outcome.isOk] at hko
            | badStatus => rw [h1c] at hko; simp [Outcome.isOk] at hko
        | false =>
            have h2f : (o₂ attempt).isOk = false := by rw [← h]; exact hko
            by_cases heq : attempt = N
            · rw [retryLoop_fail_last o₁ N attempt hko heq,
                retryLoop_fail_last o₂ N attempt h2f heq]
              exact ⟨rfl, rfl⟩
            · rw [retryLoop_fail_step o₁ N attempt hko (by omega),
                retryLoop_fail_step o₂ N attempt h2f (by omega)]
              obtain ⟨ih1, ih2⟩ := ih (attempt + 1) (by omega)
              exact ⟨by rw [ih1], ih2⟩

example : retryFetch exOk 3 = .resolved 7 := by
  simp [retryFetch, attemptFetch, exOk]

example : retryFetch exBad 1 =
    .rejectedString "❌ Failed after 1 retries: Bad response." := by
  simp [retryFetch, attemptFetch, exBad, failString, Outcome.errMsg]
  decide

example : retryFetchAsync exBad 1 =
    .rejectedError "Failed after 1 retries: Bad response." := by
  simp [retryFetchAsync, retryLoop, exBad, asyncFailMessage, Outcome.errMsg]
  decide

example : retryFetch exThird 3 = .resolved 42 ∧
    retryFetchAttempts exThird 3 = [1, 2, 3] := by
  constructor <;>
    simp [retryFetch, retryFetchAttempts, attemptFetch, exThird]

example : retryFetchAsync exThird 3 = .resolved 42 ∧
    retryFetchAsyncAttempts exThird 3 = [1, 2, 3] := by
  constructor <;>
    simp [retryFetchAsync, retryFetchAsyncAttempts, retryLoop, exThird]

example : retryFetchAsync exBad 0 = .resolvedUndef := by
  simp [retryFetchAsync, retryLoop]

example : retryFetchCalls exBad 0 = 1 := by
  simp [retryFetchCalls, retryFetchAttempts, attemptFetch, exBad]

/-! ## Claims -/

/-- C1: for every `retries = N ≥ 1` and every outcome sequence in which the
underlying fetch first succeeds on attempt `k ≤ N` (all earlier attempts
fail), `retryFetch` resolves with that attempt's decoded payload and
performs no more than `k` remote calls; no attempt is made after the first
success (every attempt number in the trace is at most `k`).  Both the
recursive and the async/await implementation satisfy this. -/
theorem C1_success_short_circuits {α : Type} (outcomes : Nat → Outcome α)
    (N k : Nat) (d : α) (_hN : 1 ≤ N) (hk : 1 ≤ k) (hkN : k ≤ N)
    (hfail : ∀ i, 1 ≤ i → i < k → (outcomes i).isOk = false)
    (hok : outcomes k = .ok d) :
    retryFetch outcomes N = .resolved d ∧
    retryFetchCalls outcomes N ≤ k ∧
    (∀ a ∈ retryFetchAttempts outcomes N, a ≤ k) ∧
    retryFetchAsync outcomes N = .resolved d ∧
    retryFetchAsyncCalls outcomes N ≤ k ∧
    (∀ a ∈ retryFetchAsyncAttempts outcomes N, a ≤ k) := by
  obtain ⟨h1, h2, h3⟩ := attemptFetch_first_ok outcomes N k d hok hkN
    (k - 1) 1 (by omega) hfail
  obtain ⟨g1, g2, g3⟩ := retryLoop_first_ok outcomes N k d hok hkN
    (k - 1) 1 (by omega) hfail
  unfold retryFetch retryFetchCalls retryFetchAttempts retryFetchAsync
    retryFetchAsyncCalls retryFetchAsyncAttempts
  exact ⟨h1, by omega, fun a ha => (h3 a ha).2, g1, by omega,
    fun a ha => (g3 a ha).2⟩

/-- C1 witness: `retries = 3`, success on the first attempt with payload
`7`: both versions resolve with `7` after one call. -/
theorem C1_success_short_circuits_witness :
    retryFetch exOk 3 = .resolved 7 ∧
    retryFetchCalls exOk 3 ≤ 1 ∧
    (∀ a ∈ retryFetchAttempts exOk 3, a ≤ 1) ∧
    retryFetchAsync exOk 3 = .resolved 7 ∧
    retryFetchAsyncCalls exOk 3 ≤ 1 ∧
    (∀ a ∈ retryFetchAsyncAttempts exOk 3, a ≤ 1) :=
  C1_success_short_circuits exOk 3 1 7 (by omega) (by omega) (by omega)
    (fun i h1 h2 => absurd h1 (by omega)) rfl

/-- C2: for every `retries = N ≥ 1`, if all `N` attempts fail, both versions
perform exactly `N` remote calls and settle with the terminal failure whose
reported attempt count is `N`: the recursive version rejects with
`failString N …` (the string embedding `N`), the async version throws the
`Error` with message `asyncFailMessage N …`. -/
theorem C2_exhaustion_performs_N_calls {α : Type} (outcomes : Nat → Outcome α)
    (N : Nat) (hN : 1 ≤ N)
    (hfail : ∀ i, 1 ≤ i → i ≤ N → (outcomes i).isOk = false) :
    retryFetchCalls outcomes N = N ∧
    retryFetch outcomes N =
      .rejectedString (failString N ((outcomes N).errMsg)) ∧
    retryFetchAsyncCalls outcomes N = N ∧
    retryFetchAsync outcomes N =
      .rejectedError (asyncFailMessage N ((outcomes N).errMsg)) := by
  obtain ⟨h1, h2, _⟩ := attemptFetch_all_fail outcomes N (N - 1) 1
    (by omega) hfail
  obtain ⟨g1, g2, _⟩ := retryLoop_all_fail outcomes N (N - 1) 1
    (by omega) hfail
  unfold retryFetch retryFetchCalls retryFetchAttempts retryFetchAsync
    retryFetchAsyncCalls retryFetchAsyncAttempts
  exact ⟨by omega, h1, by omega, g1⟩

/-- C2 witness: `retries = 2` against always-bad-status responses: exactly
2 calls and the terminal failure reporting 2 attempts. -/
theorem C2_exhaustion_performs_N_calls_witness :
    retryFetchCalls exBad 2 = 2 ∧
    retryFetch exBad 2 = .rejectedString (failString 2 ((exBad 2).errMsg)) ∧
    retryFetchAsyncCalls exBad 2 = 2 ∧
    retryFetchAsync exBad 2 =
      .rejectedError (asyncFailMessage 2 ((exBad 2).errMsg)) :=
  C2_exhaustion_performs_N_calls exBad 2 (by omega) (fun i h1 h2 => rfl)

/-- C3 counterexample: the two implementations are not semantically
identical.  With `retries = 1` and an all-failing run, the recursive
version rejects with the plain string
`"❌ Failed after 1 retries: Bad response."` while the async version throws
an `Error` whose message is `"Failed after 1 retries: Bad response."` — the
failure values differ both in kind (string vs `Error`) and in text. -/
theorem C3_counterexample : retryFetch exBad 1 ≠ retryFetchAsync exBad 1 := by
  rw [show retryFetch exBad 1 =
        .rejectedString (failString 1 ((exBad 1).errMsg)) from
      congrArg Prod.fst (attemptFetch_fail_last exBad 1 1 rfl le_rfl),
    show retryFetchAsync exBad 1 =
        .rejectedError (asyncFailMessage 1 ((exBad 1).errMsg)) from
      congrArg Prod.fst (retryLoop_fail_last exBad 1 1 rfl rfl)]
  intro hcon
  exact FetchResult.noConfusion hcon

/-- C3 amended: for every `retries = N ≥ 1` and every outcome sequence,
the two implementations perform the same number of remote calls, resolve
with the same payload whenever one of them resolves, and fail exactly
together (when all attempts fail); but on failure the surfaced values have
different shapes: the recursive version rejects the plain string
`failString N m` (`"❌ Failed after N retries: m"`) while the async version
throws an `Error` with message `asyncFailMessage N m`
(`"Failed after N retries: m"`), for the same last error message `m`. -/
theorem C3_equivalent_up_to_failure_value {α : Type}
    (outcomes : Nat → Outcome α) (N : Nat) (hN : 1 ≤ N) :
    retryFetchCalls outcomes N = retryFetchAsyncCalls outcomes N ∧
    ((∃ d, retryFetch outcomes N = .resolved d ∧
        retryFetchAsync outcomes N = .resolved d) ∨
     (∃ m, retryFetch outcomes N = .rejectedString (failString N m) ∧
        retryFetchAsync outcomes N = .rejectedError (asyncFailMessage N m))) := by
  unfold retryFetch retryFetchCalls retryFetchAttempts retryFetchAsync
    retryFetchAsyncCalls retryFetchAsyncAttempts
  rcases firstSuccess_or_allFail outcomes N with
    ⟨k, d, hk1, hkN, hok, hfail⟩ | hall
  · obtain ⟨h1, h2, _⟩ := attemptFetch_first_ok outcomes N k d hok hkN
      (k - 1) 1 (by omega) hfail
    obtain ⟨g1, g2, _⟩ := retryLoop_first_ok outcomes N k d hok hkN
      (k - 1) 1 (by omega) hfail
    exact ⟨by omega, Or.inl ⟨d, h1, g1⟩⟩
  · obtain ⟨h1, h2, _⟩ := attemptFetch_all_fail outcomes N (N - 1) 1
      (by omega) hall
    obtain ⟨g1, g2, _⟩ := retryLoop_all_fail outcomes N (N - 1) 1
      (by omega) hall
    exact ⟨by omega, Or.inr ⟨(outcomes N).errMsg, h1, g1⟩⟩

/-- C3 amended witness: call-count agreement of the two versions at
`retries = 1` on an all-failing run. -/
theorem C3_equivalent_up_to_failure_value_witness :
    retryFetchCalls exBad 1 = retryFetchAsyncCalls exBad 1 :=
  (C3_equivalent_up_to_failure_value exBad 1 (by omega)).1

/-- C4 counterexample: on exhaustion the caller does not receive a
`{attemptsMade, lastError}` object.  With `retries = 1` and an all-failing
run, the recursive version rejects with a plain string and the async
version with an `Error` carrying only a message; neither settlement is a
failure object with the two claimed fields. -/
theorem C4_counterexample :
    retryFetch exBad 1 =
      .rejectedString "❌ Failed after 1 retries: Bad response." ∧
    (retryFetch exBad 1).isFailureObj = false ∧
    retryFetchAsync exBad 1 =
      .rejectedError "Failed after 1 retries: Bad response." ∧
    (retryFetchAsync exBad 1).isFailureObj = false := by
  have e1 : retryFetch exBad 1 =
      .rejectedString "❌ Failed after 1 retries: Bad response." := by
    simp [retryFetch, attemptFetch, exBad, failString, Outcome.errMsg]
    decide
  have e2 : retryFetchAsync exBad 1 =
      .rejectedError "Failed after 1 retries: Bad response." := by
    simp [retryFetchAsync, retryLoop, exBad, asyncFailMessage, Outcome.errMsg]
    decide
  exact ⟨e1, by rw [e1]; rfl, e2, by rw [e2]; rfl⟩

/-- C4 amended: on exhaustion (every attempt failing, `retries = N ≥ 1`) the
failure surfaced to the caller is not an object exposing `attemptsMade` and
`lastError` fields; the recursive version rejects with the single string
`failString N lastError` (attempt count and last error message embedded in
the text) and the async version throws an `Error` whose message is
`asyncFailMessage N lastError`. -/
theorem C4_failure_is_string_not_object {α : Type}
    (outcomes : Nat → Outcome α) (N : Nat) (hN : 1 ≤ N)
    (hfail : ∀ i, 1 ≤ i → i ≤ N → (outcomes i).isOk = false) :
    retryFetch outcomes N =
      .rejectedString (failString N ((outcomes N).errMsg)) ∧
    (retryFetch outcomes N).isFailureObj = false ∧
    retryFetchAsync outcomes N =
      .rejectedError (asyncFailMessage N ((outcomes N).errMsg)) ∧
    (retryFetchAsync outcomes N).isFailureObj = false := by
  obtain ⟨h1, -, -⟩ := attemptFetch_all_fail outcomes N (N - 1) 1
    (by omega) hfail
  obtain ⟨g1, -, -⟩ := retryLoop_all_fail outcomes N (N - 1) 1
    (by omega) hfail
  unfold retryFetch retryFetchAsync
  exact ⟨h1, by rw [h1]; rfl, g1, by rw [g1]; rfl⟩

/-- C4 amended witness: `retries = 1` against a transport failure. -/
theorem C4_failure_is_string_not_object_witness :
    retryFetch exTrans 1 =
      .rejectedString (failString 1 ((exTrans 1).errMsg)) ∧
    (retryFetch exTrans 1).isFailureObj = false ∧
    retryFetchAsync exTrans 1 =
      .rejectedError (asyncFailMessage 1 ((exTrans 1).errMsg)) ∧
    (retryFetchAsync exTrans 1).isFailureObj = false :=
  C4_failure_is_string_not_object exTrans 1 (by omega) (fun i h1 h2 => rfl)

/-- C5: on exhaustion (`retries = N ≥ 1`, every attempt failing) the failure
detail carried by the terminal failure is exactly the error message of the
`N`-th (final) attempt, in both versions; moreover the surfaced settlement
is unchanged if the failure details of earlier attempts are replaced
arbitrarily (keeping all attempts failing and the `N`-th outcome fixed), so
an earlier attempt's detail is never the one surfaced. -/
theorem C5_last_error_surfaced {α : Type} (outcomes : Nat → Outcome α)
    (N : Nat) (hN : 1 ≤ N)
    (hfail : ∀ i, 1 ≤ i → i ≤ N → (outcomes i).isOk = false) :
    retryFetch outcomes N =
      .rejectedString (failString N ((outcomes N).errMsg)) ∧
    retryFetchAsync outcomes N =
      .rejectedError (asyncFailMessage N ((outcomes N).errMsg)) ∧
    (∀ outcomes₂ : Nat → Outcome α, outcomes₂ N = outcomes N →
      (∀ i, 1 ≤ i → i ≤ N → (outcomes₂ i).isOk = false) →
      retryFetch outcomes₂ N = retryFetch outcomes N ∧
      retryFetchAsync outcomes₂ N = retryFetchAsync outcomes N) := by
  obtain ⟨h1, -, -⟩ := attemptFetch_all_fail outcomes N (N - 1) 1
    (by omega) hfail
  obtain ⟨g1, -, -⟩ := retryLoop_all_fail outcomes N (N - 1) 1
    (by omega) hfail
  refine ⟨h1, g1, ?_⟩
  intro o₂ hlastEq hfail₂
  obtain ⟨h1b, -, -⟩ := attemptFetch_all_fail o₂ N (N - 1) 1
    (by omega) hfail₂
  obtain ⟨g1b, -, -⟩ := retryLoop_all_fail o₂ N (N - 1) 1
    (by omega) hfail₂
  constructor
  · show retryFetch o₂ N = retryFetch outcomes N
    rw [show retryFetch o₂ N =
        .rejectedString (failString N ((o₂ N).errMsg)) from h1b,
      show retryFetch outcomes N =
        .rejectedString (failString N ((outcomes N).errMsg)) from h1,
      hlastEq]
  · show retryFetchAsync o₂ N = retryFetchAsync outcomes N
    rw [show retryFetchAsync o₂ N =
        .rejectedError (asyncFailMessage N ((o₂ N).errMsg)) from g1b,
      show retryFetchAsync outcomes N =
        .rejectedError (asyncFailMessage N ((outcomes N).errMsg)) from g1,
      hlastEq]

/-- C5 witness: `retries = 2` against always-transport-failing attempts. -/
theorem C5_last_error_surfaced_witness :
    retryFetch exTrans 2 =
      .rejectedString (failString 2 ((exTrans 2).errMsg)) ∧
    retryFetchAsync exTrans 2 =
      .rejectedError (asyncFailMessage 2 ((exTrans 2).errMsg)) :=
  ⟨(C5_last_error_surfaced exTrans 2 (by omega) (fun i h1 h2 => rfl)).1,
   (C5_last_error_surfaced exTrans 2 (by omega) (fun i h1 h2 => rfl)).2.1⟩

/-- C6: for every `retries = N ≥ 1` and every outcome sequence, the caller
observes exactly one settlement, and it is either a resolved payload or the
single terminal exhaustion failure; a rejection reaches the caller only
when every one of the `N` attempts failed, so every pre-ceiling attempt
failure is absorbed internally.  (Each embedded invocation is a total
function into a single `FetchResult`, so settling more than once is ruled
out by construction.) -/
theorem C6_pre_ceiling_failures_absorbed {α : Type}
    (outcomes : Nat → Outcome α) (N : Nat) (hN : 1 ≤ N) :
    (∃ d, retryFetch outcomes N = .resolved d ∧
      retryFetchAsync outcomes N = .resolved d) ∨
    ((∀ i, 1 ≤ i → i ≤ N → (outcomes i).isOk = false) ∧
      retryFetch outcomes N =
        .rejectedString (failString N ((outcomes N).errMsg)) ∧
      retryFetchAsync outcomes N =
        .rejectedError (asyncFailMessage N ((outcomes N).errMsg))) := by
  unfold retryFetch retryFetchAsync
  rcases firstSuccess_or_allFail outcomes N with
    ⟨k, d, hk1, hkN, hok, hfail⟩ | hall
  · obtain ⟨h1, -, -⟩ := attemptFetch_first_ok outcomes N k d hok hkN
      (k - 1) 1 (by omega) hfail
    obtain ⟨g1, -, -⟩ := retryLoop_first_ok outcomes N k d hok hkN
      (k - 1) 1 (by omega) hfail
    exact Or.inl ⟨d, h1, g1⟩
  · obtain ⟨h1, -, -⟩ := attemptFetch_all_fail outcomes N (N - 1) 1
      (by omega) hall
    obtain ⟨g1, -, -⟩ := retryLoop_all_fail outcomes N (N - 1) 1
      (by omega) hall
    exact Or.inr ⟨hall, h1, g1⟩

/-- C6 witness: instantiated at `retries = 2` with failure on attempt 1 and
success on attempt 3 onwards — the attempt-1 failure is absorbed. -/
theorem C6_pre_ceiling_failures_absorbed_witness :
    (∃ d, retryFetch exThird 3 = .resolved d ∧
      retryFetchAsync exThird 3 = .resolved d) ∨
    ((∀ i, 1 ≤ i → i ≤ 3 → (exThird i).isOk = false) ∧
      retryFetch exThird 3 =
        .rejectedString (failString 3 ((exThird 3).errMsg)) ∧
      retryFetchAsync exThird 3 =
        .rejectedError (asyncFailMessage 3 ((exThird 3).errMsg))) :=
  C6_pre_ceiling_failures_absorbed exThird 3 (by omega)

/-- C7: the retry decision treats every failed attempt uniformly: whether an
attempt fails because the response status is not ok (`badStatus`) or
because the transport itself fails (`transportFail`), the control flow is
the same.  Formally, any two outcome sequences that agree on which attempts
are ok produce the same attempt trace, the same number of remote calls and
the same rejection status, in both implementations. -/
theorem C7_uniform_failure_classification {α : Type}
    (o₁ o₂ : Nat → Outcome α) (N : Nat)
    (h : ∀ i, (o₁ i).isOk = (o₂ i).isOk) :
    retryFetchAttempts o₁ N = retryFetchAttempts o₂ N ∧
    retryFetchCalls o₁ N = retryFetchCalls o₂ N ∧
    (retryFetch o₁ N).isRejected = (retryFetch o₂ N).isRejected ∧
    retryFetchAsyncAttempts o₁ N = retryFetchAsyncAttempts o₂ N ∧
    retryFetchAsyncCalls o₁ N = retryFetchAsyncCalls o₂ N ∧
    (retryFetchAsync o₁ N).isRejected = (retryFetchAsync o₂ N).isRejected := by
  obtain ⟨h1, h2⟩ := attemptFetch_isOk_congr o₁ o₂ N h N 1 (by omega)
  obtain ⟨g1, g2⟩ := retryLoop_isOk_congr o₁ o₂ N h N 1 (by omega)
  unfold retryFetch retryFetchCalls retryFetchAttempts retryFetchAsync
    retryFetchAsyncCalls retryFetchAsyncAttempts
  exact ⟨h1, by rw [h1], h2, g1, by rw [g1], g2⟩

/-- C7 witness: an all-bad-status run and an all-transport-failure run with
`retries = 2` produce the same traces, call counts and rejection status. -/
theorem C7_uniform_failure_classification_witness :
    retryFetchAttempts exBad 2 = retryFetchAttempts exTrans 2 ∧
    retryFetchCalls exBad 2 = retryFetchCalls exTrans 2 ∧
    (retryFetch exBad 2).isRejected = (retryFetch exTrans 2).isRejected ∧
    retryFetchAsyncAttempts exBad 2 = retryFetchAsyncAttempts exTrans 2 ∧
    retryFetchAsyncCalls exBad 2 = retryFetchAsyncCalls exTrans 2 ∧
    (retryFetchAsync exBad 2).isRejected =
      (retryFetchAsync exTrans 2).isRejected :=
  C7_uniform_failure_classification exBad exTrans 2 (fun _ => rfl)

/-- C8: with `retries = 1` both versions perform exactly one remote call
whatever its outcome: a successful attempt resolves with its payload, a
failed attempt settles immediately with the terminal failure, and no second
attempt is ever made. -/
theorem C8_single_attempt_when_retries_one {α : Type}
    (outcomes : Nat → Outcome α) :
    retryFetchCalls outcomes 1 = 1 ∧
    retryFetchAsyncCalls outcomes 1 = 1 ∧
    retryFetchAttempts outcomes 1 = [1] ∧
    retryFetchAsyncAttempts outcomes 1 = [1] ∧
    (∀ d, outcomes 1 = .ok d →
      retryFetch outcomes 1 = .resolved d ∧
      retryFetchAsync outcomes 1 = .resolved d) ∧
    ((outcomes 1).isOk = false →
      retryFetch outcomes 1 =
        .rejectedString (failString 1 ((outcomes 1).errMsg)) ∧
      retryFetchAsync outcomes 1 =
        .rejectedError (asyncFailMessage 1 ((outcomes 1).errMsg))) := by
  unfold retryFetch retryFetchCalls retryFetchAttempts retryFetchAsync
    retryFetchAsyncCalls retryFetchAsyncAttempts
  have htrace : (attemptFetch outcomes 1 1).2 = [1] ∧
      (retryLoop outcomes 1 1).2 = [1] := by
    cases hko : (outcomes 1).isOk with
    | true =>
        cases h1c : outcomes 1 with
        | ok d =>
            rw [attemptFetch_ok_eq outcomes 1 1 d h1c,
              retryLoop_ok_eq outcomes 1 1 d le_rfl h1c]
            exact ⟨rfl, rfl⟩
        | transportFail m => rw [h1c] at hko; simp [Outcome.isOk] at hko
        | badStatus => rw [h1c] at hko; simp [Outcome.isOk] at hko
    | false =>
        rw [attemptFetch_fail_last outcomes 1 1 hko le_rfl,
          retryLoop_fail_last outcomes 1 1 hko rfl]
        exact ⟨rfl, rfl⟩
  refine ⟨by rw [htrace.1]; rfl, by rw [htrace.2]; rfl, htrace.1, htrace.2,
    ?_, ?_⟩
  · intro d hd
    rw [attemptFetch_ok_eq outcomes 1 1 d hd,
      retryLoop_ok_eq outcomes 1 1 d le_rfl hd]
    exact ⟨rfl, rfl⟩
  · intro hko
    rw [attemptFetch_fail_last outcomes 1 1 hko le_rfl,
      retryLoop_fail_last outcomes 1 1 hko rfl]
    exact ⟨rfl, rfl⟩

/-- C8 witness: instantiated at an always-succeeding run. -/
theorem C8_single_attempt_when_retries_one_witness :
    retryFetchCalls exOk 1 = 1 ∧
    retryFetchAsyncCalls exOk 1 = 1 ∧
    retryFetchAttempts exOk 1 = [1] ∧
    retryFetchAsyncAttempts exOk 1 = [1] ∧
    (∀ d, exOk 1 = .ok d →
      retryFetch exOk 1 = .resolved d ∧
      retryFetchAsync exOk 1 = .resolved d) ∧
    ((exOk 1).isOk = false →
      retryFetch exOk 1 =
        .rejectedString (failString 1 ((exOk 1).errMsg)) ∧
      retryFetchAsync exOk 1 =
        .rejectedError (asyncFailMessage 1 ((exOk 1).errMsg))) :=
  C8_single_attempt_when_retries_one exOk

/-- C9: for every `retries = N ≥ 1` and every outcome sequence (including
all-failing ones) an invocation settles after at most `N` attempts: the
call count is at most `N` and every attempt number reached — in particular
by the recursive `attemptFetch` — lies between `1` and `N`. -/
theorem C9_settles_within_retry_budget {α : Type}
    (outcomes : Nat → Outcome α) (N : Nat) (hN : 1 ≤ N) :
    retryFetchCalls outcomes N ≤ N ∧
    (∀ a ∈ retryFetchAttempts outcomes N, 1 ≤ a ∧ a ≤ N) ∧
    retryFetchAsyncCalls outcomes N ≤ N ∧
    (∀ a ∈ retryFetchAsyncAttempts outcomes N, 1 ≤ a ∧ a ≤ N) := by
  unfold retryFetchCalls retryFetchAttempts
    retryFetchAsyncCalls retryFetchAsyncAttempts
  rcases firstSuccess_or_allFail outcomes N with
    ⟨k, d, hk1, hkN, hok, hfail⟩ | hall
  · obtain ⟨-, h2, h3⟩ := attemptFetch_first_ok outcomes N k d hok hkN
      (k - 1) 1 (by omega) hfail
    obtain ⟨-, g2, g3⟩ := retryLoop_first_ok outcomes N k d hok hkN
      (k - 1) 1 (by omega) hfail
    refine ⟨by omega, ?_, by omega, ?_⟩
    · intro a ha
      have := h3 a ha
      omega
    · intro a ha
      have := g3 a ha
      omega
  · obtain ⟨-, h2, h3⟩ := attemptFetch_all_fail outcomes N (N - 1) 1
      (by omega) hall
    obtain ⟨-, g2, g3⟩ := retryLoop_all_fail outcomes N (N - 1) 1
      (by omega) hall
    refine ⟨by omega, ?_, by omega, ?_⟩
    · intro a ha
      have := h3 a ha
      omega
    · intro a ha
      have := g3 a ha
      omega

/-- C9 witness: all-failing run with `retries = 3`. -/
theorem C9_settles_within_retry_budget_witness :
    retryFetchCalls exBad 3 ≤ 3 ∧
    (∀ a ∈ retryFetchAttempts exBad 3, 1 ≤ a ∧ a ≤ 3) ∧
    retryFetchAsyncCalls exBad 3 ≤ 3 ∧
    (∀ a ∈ retryFetchAsyncAttempts exBad 3, 1 ≤ a ∧ a ≤ 3) :=
  C9_settles_within_retry_budget exBad 3 (by omega)

/-- C10: the precondition `retries ≥ 1` is not checked.  Called with
`retries = 0`, the async/await version's loop body never runs: it performs
zero remote calls and resolves with `undefined` instead of raising any
error; the recursive version still unconditionally performs exactly one
remote call. -/
theorem C10_zero_retries_unchecked {α : Type} (outcomes : Nat → Outcome α) :
    retryFetchAsync outcomes 0 = .resolvedUndef ∧
    retryFetchAsyncCalls outcomes 0 = 0 ∧
    retryFetchCalls outcomes 0 = 1 := by
  unfold retryFetchCalls retryFetchAttempts retryFetchAsync
    retryFetchAsyncCalls retryFetchAsyncAttempts
  have hout := retryLoop_out outcomes 0 1 (by omega)
  have hone : (attemptFetch outcomes 0 1).2 = [1] := by
    cases hko : (outcomes 1).isOk with
    | true =>
        cases h1c : outcomes 1 with
        | ok d => rw [attemptFetch_ok_eq outcomes 0 1 d h1c]
        | transportFail m => rw [h1c] at hko; simp [Outcome.isOk] at hko
        | badStatus => rw [h1c] at hko; simp [Outcome.isOk] at hko
    | false =>
        rw [attemptFetch_fail_last outcomes 0 1 hko (by omega)]
  exact ⟨by rw [hout], by rw [hout]; rfl, by rw [hone]; rfl⟩
